import Mathlib

/-!
# pfx2 particle component: texture animation, visibility and lifetime parameters

Shallow embedding of `Code/CryEngine/Cry3DEngine/ParticleSystem/ParticleComponent.h`.

Numeric conventions.
* `float` values that the code treats as ordinary finite numbers are elements of an
  arbitrary linearly ordered field `K` with a floor function (exact arithmetic, no
  rounding, no overflow).  Instantiating `K := ℚ` gives executable definitions,
  instantiating `K := ℝ` gives the real functions used for the continuity statement.
* `float` values that the code tests with `std::isfinite` are elements of `XFloat K`,
  which adds `+inf`, `-inf` and `NaN` to `K`.
* Where a statement that holds in exact arithmetic fails in the code's floating point
  arithmetic, the same operations are read in IEEE binary32 (namespace `F32`, on
  `XFloat ℚ`): rounding to nearest, overflow to infinity, `NaN` propagation.
-/

namespace pfx2

/-! ## Numeric helpers that the header uses but does not declare -/

section Helpers

variable {K : Type} [LinearOrderedField K] [FloorRing K]

/-- Modelled from the spec: `trunc` is declared in the math headers that are not part of
the source fragment; it is rounding toward zero, the integer part used by the float
modulo. -/
def trunc (x : K) : K :=
  if 0 ≤ x then ((⌊x⌋ : ℤ) : K) else ((⌈x⌉ : ℤ) : K)

/-- Modelled from the spec: `mod` ("wrap via modulo") is declared in the math headers
that are not part of the source fragment; it is the floating point remainder
`a - trunc(a / b) * b`, whose result has the sign of `a`. -/
def mod (a b : K) : K :=
  a - trunc (a / b) * b

end Helpers

/-! ## Update stages -/

/-- Enumeration `EUpdateList`, the closing enumerator `EUL_Count` included. -/
inductive EUpdateList where
  | EUL_MainPreUpdate
  | EUL_InitSubInstances
  | EUL_GetExtents
  | EUL_GetEmitOffset
  | EUL_Spawn
  | EUL_InitUpdate
  | EUL_PostInitUpdate
  | EUL_KillUpdate
  | EUL_PreUpdate
  | EUL_Update
  | EUL_PostUpdate
  | EUL_ComputeBounds
  | EUL_Render
  | EUL_RenderDeferred
  | EUL_UpdateGPU
  | EUL_Count
  deriving DecidableEq, Repr

namespace EUpdateList

/-- The enumerators of `EUpdateList` in the order of their declaration. -/
def enumerators : List EUpdateList :=
  [EUL_MainPreUpdate, EUL_InitSubInstances, EUL_GetExtents, EUL_GetEmitOffset, EUL_Spawn,
    EUL_InitUpdate, EUL_PostInitUpdate, EUL_KillUpdate, EUL_PreUpdate, EUL_Update,
    EUL_PostUpdate, EUL_ComputeBounds, EUL_Render, EUL_RenderDeferred, EUL_UpdateGPU,
    EUL_Count]

/-- The integer value of an enumerator: none has an initializer, so the first is 0 and
each one is its predecessor plus one, that is its position in the declaration. -/
def toNat (e : EUpdateList) : Nat :=
  enumerators.indexOf e

/-- The update stages: the enumerators declared before `EUL_Count`. -/
def stages : List EUpdateList :=
  enumerators.filter (fun e => decide (toNat e < toNat EUL_Count))

end EUpdateList

/-! ## Texture animation -/

/-- Enumeration `EAnimationCycle`. -/
inductive EAnimationCycle where
  | Once
  | Loop
  | Mirror
  deriving DecidableEq, Repr

/-- Structure `STextureAnimation`, private scale factors included.  `m_frameCount` is a
`uint16` hard-limited to `1..256`. -/
structure STextureAnimation (K : Type) where
  m_frameRate : K
  m_frameCount : Nat
  m_cycleMode : EAnimationCycle
  m_frameBlending : Bool
  m_ageScale : K
  m_animPosScale : K

namespace STextureAnimation

variable {K : Type} [LinearOrderedField K] [FloorRing K]

/-- Method `STextureAnimation::IsAnimating`. -/
def IsAnimating (self : STextureAnimation K) : Bool :=
  decide (self.m_frameCount > 1)

/-- Method `STextureAnimation::HasAbsoluteFrameRate`. -/
def HasAbsoluteFrameRate (self : STextureAnimation K) : Bool :=
  decide (self.m_frameRate > 0)

/-- Method `STextureAnimation::GetAnimPosAbsolute`. -/
def GetAnimPosAbsolute (self : STextureAnimation K) (age : K) : K :=
  let animPos := age * self.m_ageScale
  let animPos :=
    match self.m_cycleMode with
    | EAnimationCycle.Once => min animPos 1
    | EAnimationCycle.Loop => mod animPos 1
    | EAnimationCycle.Mirror => 1 - |mod animPos 2 - 1|
  animPos * self.m_animPosScale

/-- The Mirror formula as the specification words it, `1 - |mod(a*2, 2) - 1|` with
`a = age * m_ageScale`, times the position scale.  Only used for comparison with
`GetAnimPosAbsolute`. -/
def mirrorAsSpecified (self : STextureAnimation K) (age : K) : K :=
  let a := age * self.m_ageScale
  (1 - |mod (a * 2) 2 - 1|) * self.m_animPosScale

end STextureAnimation

/-! ## Visibility parameters -/

/-- Enumeration `EIndoorVisibility`. -/
inductive EIndoorVisibility where
  | IndoorOnly
  | OutdoorOnly
  | Both
  deriving DecidableEq, Repr

/-- Enumeration `EWaterVisibility`. -/
inductive EWaterVisibility where
  | AboveWaterOnly
  | BelowWaterOnly
  | Both
  deriving DecidableEq, Repr

/-- Modelled from the spec: `UFloat` is declared in `Features/ParamTraits.h`, which is not
part of the source fragment; it is a finite float value (the non-negativity limit is
stated as a hypothesis where it matters). -/
abbrev UFloat (K : Type) := K

/-- Modelled from the spec: `UInfFloat` is declared in `Features/ParamTraits.h`, which is
not part of the source fragment; it is a float value that may also be `+infinity`. -/
abbrev UInfFloat (K : Type) := WithTop K

/-- Structure `SVisibilityParams`. -/
structure SVisibilityParams (K : Type) where
  m_viewDistanceMultiple : UFloat K
  m_minCameraDistance : UFloat K
  m_maxCameraDistance : UInfFloat K
  m_maxScreenSize : UInfFloat K
  m_indoorVisibility : EIndoorVisibility
  m_waterVisibility : EWaterVisibility

namespace SVisibilityParams

variable {K : Type} [LinearOrderedField K]

/-- Method `SVisibilityParams::Combine`; the receiver after the call is the result. -/
def Combine (self o : SVisibilityParams K) : SVisibilityParams K :=
  { m_viewDistanceMultiple := self.m_viewDistanceMultiple * o.m_viewDistanceMultiple
    m_maxScreenSize := min self.m_maxScreenSize o.m_maxScreenSize
    m_minCameraDistance := max self.m_minCameraDistance o.m_minCameraDistance
    m_maxCameraDistance := min self.m_maxCameraDistance o.m_maxCameraDistance
    m_indoorVisibility :=
      if self.m_indoorVisibility = EIndoorVisibility.Both then o.m_indoorVisibility
      else self.m_indoorVisibility
    m_waterVisibility :=
      if self.m_waterVisibility = EWaterVisibility.Both then o.m_waterVisibility
      else self.m_waterVisibility }

end SVisibilityParams

/-! ## Component parameters -/

/-- A `float` that may be non-finite: a finite value, `+inf`, `-inf` or `NaN`. -/
inductive XFloat (K : Type) where
  | fin (x : K)
  | posInf
  | negInf
  | nan

namespace XFloat

variable {K : Type} [LinearOrderedField K]

/-- Floating point addition on `XFloat`: exact on finite values (no rounding and no
overflow; the binary32 addition is `F32.add`), IEEE rules for the infinities and `NaN`. -/
def add : XFloat K → XFloat K → XFloat K
  | fin x, fin y => fin (x + y)
  | nan, _ => nan
  | _, nan => nan
  | posInf, negInf => nan
  | negInf, posInf => nan
  | posInf, _ => posInf
  | _, posInf => posInf
  | negInf, _ => negInf
  | _, negInf => negInf

/-- Function `std::isfinite`. -/
def isfinite : XFloat K → Bool
  | fin _ => true
  | _ => false

end XFloat

/-- Structure `Range` (a pair of floats `start`, `end`); the field `end` is named
`«end»` here since `end` is a keyword. -/
structure Range (K : Type) where
  start : XFloat K
  «end» : XFloat K

/-- Structure `SComponentParams`, restricted to the fields read by the methods embedded
here. -/
structure SComponentParams (K : Type) where
  m_instanceDataStride : Nat
  m_textureAnimation : STextureAnimation K
  m_emitterLifeTime : Range K
  m_maxParticleLifeTime : XFloat K
  m_visibility : SVisibilityParams K

namespace SComponentParams

variable {K : Type} [LinearOrderedField K]

/-- Method `SComponentParams::IsImmortal`. -/
def IsImmortal (self : SComponentParams K) : Bool :=
  !(XFloat.isfinite (XFloat.add self.m_emitterLifeTime.«end» self.m_maxParticleLifeTime))

end SComponentParams

/-! ## Binary32 arithmetic

The operations of the header read as IEEE binary32 operations: every result is rounded to
the nearest binary32 value (ties to even), a result beyond the largest finite value is an
infinity, and the infinities and `NaN` follow the IEEE rules.  Finite values are rationals;
zero carries no sign. -/

deriving instance DecidableEq for XFloat

namespace F32

open XFloat

/-- The largest exponent `e` among `lo + 1, ..., lo + n` with `2^e ≤ q`, and `lo` when
there is none. -/
def exponentFrom (q : ℚ) (lo : ℤ) : Nat → ℤ
  | 0 => lo
  | n + 1 =>
    if (2 : ℚ) ^ (lo + ((n + 1 : ℕ) : ℤ)) ≤ q then lo + ((n + 1 : ℕ) : ℤ)
    else exponentFrom q lo n

/-- The binary32 exponent of a magnitude `q`: the largest `e` in `-126 .. 128` with
`2^e ≤ q`, and `-126` for the magnitudes below `2^-126`. -/
def exponent (q : ℚ) : ℤ :=
  exponentFrom q (-126) 254

/-- Rounding of a rational to the nearest integer, ties to the even one. -/
def roundHalfEven (q : ℚ) : ℤ :=
  let f := ⌊q⌋
  if q - f < 1 / 2 then f
  else if 1 / 2 < q - f then f + 1
  else if f % 2 = 0 then f
  else f + 1

/-- Rounding of an exact result to binary32: the nearest multiple of
`2^(e - 23)` for the exponent `e` of the magnitude, ties to even; a rounded magnitude of
`2^128` or more is an infinity. -/
def round (q : ℚ) : XFloat ℚ :=
  if q = 0 then fin 0
  else
    let e := exponent |q|
    let ulp := (2 : ℚ) ^ (e - 23)
    let r := (roundHalfEven (q / ulp) : ℚ) * ulp
    if (2 : ℚ) ^ (128 : ℤ) ≤ |r| then (if 0 < q then posInf else negInf) else fin r

/-- Negation. -/
def neg : XFloat ℚ → XFloat ℚ
  | fin x => fin (-x)
  | posInf => negInf
  | negInf => posInf
  | nan => nan

/-- Addition: the exact sum rounded; opposite infinities give `NaN`. -/
def add : XFloat ℚ → XFloat ℚ → XFloat ℚ
  | fin x, fin y => round (x + y)
  | nan, _ => nan
  | _, nan => nan
  | posInf, negInf => nan
  | negInf, posInf => nan
  | posInf, _ => posInf
  | _, posInf => posInf
  | negInf, _ => negInf
  | _, negInf => negInf

/-- Subtraction `a - b`. -/
def sub (a b : XFloat ℚ) : XFloat ℚ :=
  add a (neg b)

/-- The product of `+inf` and a value: `NaN` for zero and `NaN`, otherwise the infinity
with the sign of the value. -/
def infTimes : XFloat ℚ → XFloat ℚ
  | fin y => if y = 0 then nan else if 0 < y then posInf else negInf
  | posInf => posInf
  | negInf => negInf
  | nan => nan

/-- Multiplication `a * b`: the exact product rounded. -/
def mul : XFloat ℚ → XFloat ℚ → XFloat ℚ
  | fin x, fin y => round (x * y)
  | posInf, v => infTimes v
  | negInf, v => neg (infTimes v)
  | v, posInf => infTimes v
  | v, negInf => neg (infTimes v)
  | nan, _ => nan
  | _, nan => nan

/-- Division `a / b`: the exact quotient rounded; a non-zero value over zero is an
infinity, zero over zero and infinity over infinity are `NaN`. -/
def div : XFloat ℚ → XFloat ℚ → XFloat ℚ
  | fin x, fin y =>
    if y = 0 then (if x = 0 then nan else if 0 < x then posInf else negInf)
    else round (x / y)
  | nan, _ => nan
  | _, nan => nan
  | fin _, _ => fin 0
  | posInf, fin y => if 0 ≤ y then posInf else negInf
  | negInf, fin y => if 0 ≤ y then negInf else posInf
  | _, _ => nan

/-- Comparison `a < b`; false when an operand is `NaN`. -/
def lt : XFloat ℚ → XFloat ℚ → Bool
  | fin x, fin y => decide (x < y)
  | nan, _ => false
  | _, nan => false
  | negInf, negInf => false
  | negInf, _ => true
  | _, negInf => false
  | posInf, _ => false
  | _, posInf => true

/-- Comparison `a ≤ b`; false when an operand is `NaN`. -/
def le : XFloat ℚ → XFloat ℚ → Bool
  | fin x, fin y => decide (x ≤ y)
  | nan, _ => false
  | _, nan => false
  | negInf, _ => true
  | _, posInf => true
  | _, _ => false

/-- Modelled from the spec: `min` on floats is declared in the math headers that are not
part of the source fragment; it is the smaller operand, `b < a ? b : a`. -/
def min (a b : XFloat ℚ) : XFloat ℚ :=
  if lt b a then b else a

/-- Modelled from the spec: `trunc`, rounding toward zero; the result of rounding a
binary32 value toward zero is a binary32 value. -/
def trunc : XFloat ℚ → XFloat ℚ
  | fin x => fin (pfx2.trunc x)
  | v => v

/-- Modelled from the spec: `mod`, the remainder `a - trunc(a / b) * b` with every
operation in binary32. -/
def mod (a b : XFloat ℚ) : XFloat ℚ :=
  sub a (mul (trunc (div a b)) b)

end F32

namespace STextureAnimation

open XFloat

end STextureAnimation

/-! ## Particle component -/

/-- A raw pointer, kept as its address; the null pointer is address 0. -/
abbrev Ptr := Nat

/-- Class `CParticleComponent`, restricted to its name, id, component parameters, per-stage
update lists (an array of `EUL_Count` vectors of feature pointers), dirty flag and GPU
feature list. -/
structure CParticleComponent (K : Type) where
  m_name : String
  m_componentId : Nat
  m_componentParams : SComponentParams K
  m_updateLists : Fin EUpdateList.EUL_Count.toNat → List Ptr
  m_dirty : Bool
  m_gpuFeatures : List Ptr

namespace CParticleComponent

variable {K : Type}

/-- Method `CParticleComponent::AddGPUFeature`; the receiver after the call is the
result. -/
def AddGPUFeature (self : CParticleComponent K) (gpuInterface : Ptr) : CParticleComponent K :=
  if gpuInterface ≠ 0 then
    { self with m_gpuFeatures := self.m_gpuFeatures ++ [gpuInterface] }
  else self

/-- Method `CParticleComponent::GetGpuFeatures`. -/
def GetGpuFeatures (self : CParticleComponent K) : List Ptr :=
  self.m_gpuFeatures

end CParticleComponent

/-! ## Concrete values used to evaluate the definitions -/

/-- A texture animation with the given cycle mode and private scale factors; the public
fields are a zero frame rate, one frame and frame blending on. -/
def mkAnim {K : Type} [Zero K] (mode : EAnimationCycle) (ageScale animPosScale : K) :
    STextureAnimation K :=
  { m_frameRate := 0, m_frameCount := 1, m_cycleMode := mode, m_frameBlending := true,
    m_ageScale := ageScale, m_animPosScale := animPosScale }

/-- Visibility parameters with a view distance multiple of 2 and every other field at
its least restrictive value. -/
def visDouble : SVisibilityParams ℚ :=
  { m_viewDistanceMultiple := 2, m_minCameraDistance := 0, m_maxCameraDistance := ⊤,
    m_maxScreenSize := ⊤, m_indoorVisibility := EIndoorVisibility.Both,
    m_waterVisibility := EWaterVisibility.Both }

/-- Component parameters with the given emitter life time end and maximal particle life
time. -/
def mkParams (lifeEnd maxLife : XFloat ℚ) : SComponentParams ℚ :=
  { m_instanceDataStride := 0
    m_textureAnimation := mkAnim EAnimationCycle.Once 1 1
    m_emitterLifeTime := { start := XFloat.fin 0, «end» := lifeEnd }
    m_maxParticleLifeTime := maxLife
    m_visibility := visDouble }

/-- Visibility parameters with the given enum axes, a view distance multiple of 1, no
minimal camera distance and unbounded maximal camera distance and screen size. -/
def mkVis (indoor : EIndoorVisibility) (water : EWaterVisibility) : SVisibilityParams ℚ :=
  { m_viewDistanceMultiple := 1, m_minCameraDistance := 0, m_maxCameraDistance := ⊤,
    m_maxScreenSize := ⊤, m_indoorVisibility := indoor, m_waterVisibility := water }

/-- A freshly reset component: no instance data, empty update lists, and the given GPU
feature list. -/
def mkComponent (gpuFeatures : List Ptr) : CParticleComponent ℚ :=
  { m_name := "component"
    m_componentId := 0
    m_componentParams := mkParams (XFloat.fin 10) (XFloat.fin 5)
    m_updateLists := fun _ => []
    m_dirty := false
    m_gpuFeatures := gpuFeatures }

/-! ## Lemmas on the numeric helpers -/

/-- Binary32 rounding at sample points: `0.1` rounds to `13421773 / 2^27`, ties go to the
even neighbour, the largest finite value is `(2^24 - 1) * 2^104` and the nearest values
from `2^128 - 2^103` on are infinite, the spacing below `2^-126` is `2^-149`. -/
theorem F32.round_samples :
    F32.round (1 / 10) = XFloat.fin (13421773 / 2 ^ 27) ∧
      F32.round (1 + 1 / 2 ^ 24) = XFloat.fin 1 ∧
      F32.round (1 + 3 / 2 ^ 24) = XFloat.fin (1 + 4 / 2 ^ 24) ∧
      F32.round (-(1 + 3 / 2 ^ 24)) = XFloat.fin (-(1 + 4 / 2 ^ 24)) ∧
      F32.round ((2 ^ 24 - 1) * 2 ^ 104) = XFloat.fin ((2 ^ 24 - 1) * 2 ^ 104) ∧
      F32.round ((2 ^ 24 - 1) * 2 ^ 104 + 2 ^ 103 - 1) =
        XFloat.fin ((2 ^ 24 - 1) * 2 ^ 104) ∧
      F32.round ((2 ^ 24 - 1) * 2 ^ 104 + 2 ^ 103) = XFloat.posInf ∧
      F32.round (-(2 ^ 128)) = XFloat.negInf ∧
      F32.round (1 / 2 ^ 149) = XFloat.fin (1 / 2 ^ 149) ∧
      F32.round (1 / 2 ^ 150) = XFloat.fin 0 ∧
      F32.round (3 / 2 ^ 150) = XFloat.fin (2 / 2 ^ 149) := by
  decide!

section HelperLemmas

variable {K : Type} [LinearOrderedField K] [FloorRing K]

theorem trunc_of_nonneg {x : K} (hx : 0 ≤ x) : trunc x = ((⌊x⌋ : ℤ) : K) := by
  simp [trunc, hx]

theorem mod_of_nonneg {a b : K} (ha : 0 ≤ a) (hb : 0 < b) :
    mod a b = b * Int.fract (a / b) := by
  have h : 0 ≤ a / b := div_nonneg ha hb.le
  rw [mod, trunc_of_nonneg h, Int.fract]
  field_simp
  ring

theorem mod_one_of_nonneg {a : K} (ha : 0 ≤ a) : mod a 1 = Int.fract a := by
  rw [mod_of_nonneg ha one_pos]; simp

theorem mod_zero_left (b : K) : mod 0 b = 0 := by
  simp [mod, trunc]

end HelperLemmas

/-! ## Visibility parameters: `Combine` -/

section Visibility

variable {K : Type} [LinearOrderedField K]

open SVisibilityParams

/-- Claim C1: after `a.Combine(b)` the indoor/outdoor axis of the result is `Both` only
if (and in fact exactly if) it was `Both` in both `a` and `b`; likewise for the
above/below-water axis.  An axis narrowed by either operand does not return to `Both`. -/
theorem combine_axis_both_iff (a b : SVisibilityParams K) :
    ((a.Combine b).m_indoorVisibility = EIndoorVisibility.Both ↔
        a.m_indoorVisibility = EIndoorVisibility.Both ∧
          b.m_indoorVisibility = EIndoorVisibility.Both) ∧
      ((a.Combine b).m_waterVisibility = EWaterVisibility.Both ↔
        a.m_waterVisibility = EWaterVisibility.Both ∧
          b.m_waterVisibility = EWaterVisibility.Both) := by
  constructor
  · by_cases h : a.m_indoorVisibility = EIndoorVisibility.Both <;> simp [Combine, h]
  · by_cases h : a.m_waterVisibility = EWaterVisibility.Both <;> simp [Combine, h]

/-- Claim C2, as stated, fails: combining parameters whose view distance multiple is 2
with themselves gives a view distance multiple of 4, so the record changes. -/
theorem combine_self_not_idempotent :
    (visDouble.Combine visDouble).m_viewDistanceMultiple = 4 ∧
      visDouble.m_viewDistanceMultiple = 2 ∧ visDouble.Combine visDouble ≠ visDouble := by
  refine ⟨by norm_num [Combine, visDouble], rfl, ?_⟩
  intro h
  have h2 := congrArg SVisibilityParams.m_viewDistanceMultiple h
  norm_num [Combine, visDouble] at h2

/-- Claim C2, amended: `p.Combine(p)` leaves the five fields `m_minCameraDistance`,
`m_maxCameraDistance`, `m_maxScreenSize`, `m_indoorVisibility`, `m_waterVisibility`
unchanged and replaces `m_viewDistanceMultiple` by its square; so all six fields are
unchanged exactly when `m_viewDistanceMultiple` is 0 or 1. -/
theorem combine_self (p : SVisibilityParams K) :
    (p.Combine p).m_minCameraDistance = p.m_minCameraDistance ∧
      (p.Combine p).m_maxCameraDistance = p.m_maxCameraDistance ∧
      (p.Combine p).m_maxScreenSize = p.m_maxScreenSize ∧
      (p.Combine p).m_indoorVisibility = p.m_indoorVisibility ∧
      (p.Combine p).m_waterVisibility = p.m_waterVisibility ∧
      (p.Combine p).m_viewDistanceMultiple =
        p.m_viewDistanceMultiple * p.m_viewDistanceMultiple ∧
      (p.Combine p = p ↔ p.m_viewDistanceMultiple = 0 ∨ p.m_viewDistanceMultiple = 1) := by
  have hv : p.m_viewDistanceMultiple * p.m_viewDistanceMultiple = p.m_viewDistanceMultiple ↔
      p.m_viewDistanceMultiple = 0 ∨ p.m_viewDistanceMultiple = 1 := by
    constructor
    · intro h
      have h2 : p.m_viewDistanceMultiple * (p.m_viewDistanceMultiple - 1) = 0 := by
        rw [mul_sub, h, mul_one, sub_self]
      rcases mul_eq_zero.mp h2 with h3 | h3
      · exact Or.inl h3
      · exact Or.inr (sub_eq_zero.mp h3)
    · rintro (h | h) <;> simp [h]
  refine ⟨by simp [Combine], by simp [Combine], by simp [Combine], by simp [Combine],
    by simp [Combine], rfl, ?_⟩
  rw [← hv]
  constructor
  · intro h
    exact congrArg SVisibilityParams.m_viewDistanceMultiple h
  · intro h
    cases p
    simp only [Combine] at h ⊢
    simp [h]

/-- Claim C3: on `m_maxScreenSize`, `m_maxCameraDistance` (combined by `min`) and
`m_minCameraDistance` (combined by `max`), `Combine` is commutative and associative. -/
theorem combine_minmax_comm_assoc (a b c : SVisibilityParams K) :
    ((a.Combine b).m_maxScreenSize = (b.Combine a).m_maxScreenSize ∧
        (a.Combine b).m_maxCameraDistance = (b.Combine a).m_maxCameraDistance ∧
        (a.Combine b).m_minCameraDistance = (b.Combine a).m_minCameraDistance) ∧
      (((a.Combine b).Combine c).m_maxScreenSize =
          (a.Combine (b.Combine c)).m_maxScreenSize ∧
        ((a.Combine b).Combine c).m_maxCameraDistance =
          (a.Combine (b.Combine c)).m_maxCameraDistance ∧
        ((a.Combine b).Combine c).m_minCameraDistance =
          (a.Combine (b.Combine c)).m_minCameraDistance) :=
  ⟨⟨min_comm _ _, min_comm _ _, max_comm _ _⟩,
    ⟨min_assoc _ _ _, min_assoc _ _ _, max_assoc _ _ _⟩⟩

end Visibility

/-! ## Component parameters: `IsImmortal` -/

section Immortal

variable {K : Type} [LinearOrderedField K]

open SComponentParams XFloat

/-- Claim C4, as stated, fails: with an infinite emitter life time end and a maximal
particle life time of 5 the component is immortal although only one of the two values
is non-finite. -/
theorem isImmortal_one_infinite :
    (mkParams XFloat.posInf (XFloat.fin 5)).IsImmortal = true ∧
      ¬ (isfinite (mkParams XFloat.posInf (XFloat.fin 5)).m_emitterLifeTime.«end» = false ∧
          isfinite (mkParams XFloat.posInf (XFloat.fin 5)).m_maxParticleLifeTime = false) := by
  constructor
  · rfl
  · simp [mkParams, isfinite]

/-- Claim C4, amended: with the values of the two fields modelled as reals extended with
infinity and added exactly (the sum of two finite values is finite, there is no overflow),
`IsImmortal()` is true if and only if at least one of `m_emitterLifeTime.end` and
`m_maxParticleLifeTime` is non-finite. -/
theorem isImmortal_iff (p : SComponentParams K) :
    p.IsImmortal = true ↔
      (isfinite p.m_emitterLifeTime.«end» = false ∨
        isfinite p.m_maxParticleLifeTime = false) := by
  unfold IsImmortal
  cases p.m_emitterLifeTime.«end» <;> cases p.m_maxParticleLifeTime <;>
    simp [XFloat.add, isfinite]

/-- Claim C5: whenever `m_emitterLifeTime.end` and `m_maxParticleLifeTime` are both
finite, `IsImmortal()` is false. -/
theorem isImmortal_false_of_finite (p : SComponentParams K)
    (h1 : isfinite p.m_emitterLifeTime.«end» = true)
    (h2 : isfinite p.m_maxParticleLifeTime = true) : p.IsImmortal = false := by
  unfold IsImmortal
  revert h1 h2
  cases p.m_emitterLifeTime.«end» <;> cases p.m_maxParticleLifeTime <;>
    simp [XFloat.add, isfinite]

/-- Evaluation at `end = 10`, `maxParticleLifeTime = 5`: both finite, not immortal. -/
theorem isImmortal_false_of_finite_witness :
    isfinite (mkParams (XFloat.fin 10) (XFloat.fin 5)).m_emitterLifeTime.«end» = true ∧
      isfinite (mkParams (XFloat.fin 10) (XFloat.fin 5)).m_maxParticleLifeTime = true ∧
      (mkParams (XFloat.fin 10) (XFloat.fin 5)).IsImmortal = false :=
  ⟨rfl, rfl, isImmortal_false_of_finite _ rfl rfl⟩

end Immortal

/-! ## Texture animation: `GetAnimPosAbsolute` -/

section TextureAnimation

variable {K : Type} [LinearOrderedField K] [FloorRing K]

open STextureAnimation

/-- Claim C6: `GetAnimPosAbsolute(0)` is 0 for every cycle mode and every value of the
scale factors `m_ageScale` and `m_animPosScale`. -/
theorem getAnimPosAbsolute_zero (self : STextureAnimation K) :
    self.GetAnimPosAbsolute 0 = 0 := by
  unfold GetAnimPosAbsolute
  cases self.m_cycleMode <;> simp [mod_zero_left]

/-- Claim C7: in Loop mode, for every `age ≥ 0` and `m_ageScale > 0`,
`GetAnimPosAbsolute(age)` equals `GetAnimPosAbsolute(age + 1/m_ageScale)`. -/
theorem getAnimPosAbsolute_loop_periodic (self : STextureAnimation K) (age : K)
    (hmode : self.m_cycleMode = EAnimationCycle.Loop) (hage : 0 ≤ age)
    (hs : 0 < self.m_ageScale) :
    self.GetAnimPosAbsolute age = self.GetAnimPosAbsolute (age + 1 / self.m_ageScale) := by
  have h1 : (age + 1 / self.m_ageScale) * self.m_ageScale = age * self.m_ageScale + 1 := by
    field_simp
  have h2 : 0 ≤ age * self.m_ageScale := mul_nonneg hage hs.le
  have h3 : 0 ≤ age * self.m_ageScale + 1 := by linarith
  simp only [GetAnimPosAbsolute, hmode, h1]
  rw [mod_one_of_nonneg h2, mod_one_of_nonneg h3, Int.fract_add_one]

/-- Evaluation in Loop mode with age scale 2 at age 3/4: the period is 1/2. -/
theorem getAnimPosAbsolute_loop_periodic_witness :
    (mkAnim EAnimationCycle.Loop (2 : ℚ) 4).m_cycleMode = EAnimationCycle.Loop ∧
      (0 : ℚ) ≤ 3 / 4 ∧ 0 < (mkAnim EAnimationCycle.Loop (2 : ℚ) 4).m_ageScale ∧
      (mkAnim EAnimationCycle.Loop (2 : ℚ) 4).GetAnimPosAbsolute (3 / 4) =
        (mkAnim EAnimationCycle.Loop (2 : ℚ) 4).GetAnimPosAbsolute
          (3 / 4 + 1 / (mkAnim EAnimationCycle.Loop (2 : ℚ) 4).m_ageScale) :=
  ⟨rfl, by norm_num, by simp [mkAnim],
    getAnimPosAbsolute_loop_periodic _ _ rfl (by norm_num) (by simp [mkAnim])⟩

/-- Claim C9, as stated, fails: in Mirror mode with both scale factors 1, at age 1/2 the
code returns 1/2 whereas `1 - |mod(a*2, 2) - 1|` is 1. -/
theorem getAnimPosAbsolute_mirror_not_doubled :
    (mkAnim EAnimationCycle.Mirror (1 : ℚ) 1).GetAnimPosAbsolute (1 / 2) = 1 / 2 ∧
      (mkAnim EAnimationCycle.Mirror (1 : ℚ) 1).mirrorAsSpecified (1 / 2) = 1 ∧
      (mkAnim EAnimationCycle.Mirror (1 : ℚ) 1).GetAnimPosAbsolute (1 / 2) ≠
        (mkAnim EAnimationCycle.Mirror (1 : ℚ) 1).mirrorAsSpecified (1 / 2) := by
  have f1 : ⌊(1 / 4 : ℚ)⌋ = 0 := by rw [Int.floor_eq_iff]; norm_num
  have f2 : ⌊(1 / 2 : ℚ)⌋ = 0 := by rw [Int.floor_eq_iff]; norm_num
  have a1 : |(1 / 2 : ℚ)| = 1 / 2 := abs_of_pos (by norm_num)
  have h1 : (mkAnim EAnimationCycle.Mirror (1 : ℚ) 1).GetAnimPosAbsolute (1 / 2) = 1 / 2 := by
    simp only [GetAnimPosAbsolute, mkAnim, mod, trunc]
    norm_num [f1, a1]
  have h2 : (mkAnim EAnimationCycle.Mirror (1 : ℚ) 1).mirrorAsSpecified (1 / 2) = 1 := by
    simp only [mirrorAsSpecified, mkAnim, mod, trunc]
    norm_num [f2]
  refine ⟨h1, h2, ?_⟩
  rw [h1, h2]; norm_num

/-- Claim C9, amended: in Mirror mode `GetAnimPosAbsolute` computes the normalized position
as the triangle wave `1 - |mod(a, 2) - 1|` of the scaled age `a = age * m_ageScale` itself
(the age is not doubled) and returns that value times `m_animPosScale`, for every age;
the formula with the doubled age is what the code returns at twice the age. -/
theorem getAnimPosAbsolute_mirror_formula (self : STextureAnimation K) (age : K)
    (hmode : self.m_cycleMode = EAnimationCycle.Mirror) :
    self.GetAnimPosAbsolute age =
        (1 - |mod (age * self.m_ageScale) 2 - 1|) * self.m_animPosScale ∧
      self.mirrorAsSpecified age = self.GetAnimPosAbsolute (2 * age) := by
  simp only [GetAnimPosAbsolute, mirrorAsSpecified, hmode, true_and]
  rw [show age * self.m_ageScale * 2 = 2 * age * self.m_ageScale by ring]

/-- Evaluation in Mirror mode with both scale factors equal to 1 at age 1/2. -/
theorem getAnimPosAbsolute_mirror_formula_witness :
    (mkAnim EAnimationCycle.Mirror (1 : ℚ) 1).m_cycleMode = EAnimationCycle.Mirror ∧
      ((mkAnim EAnimationCycle.Mirror (1 : ℚ) 1).GetAnimPosAbsolute (1 / 2) =
          (1 - |mod (1 / 2 * (mkAnim EAnimationCycle.Mirror (1 : ℚ) 1).m_ageScale) 2 - 1|) *
            (mkAnim EAnimationCycle.Mirror (1 : ℚ) 1).m_animPosScale ∧
        (mkAnim EAnimationCycle.Mirror (1 : ℚ) 1).mirrorAsSpecified (1 / 2) =
          (mkAnim EAnimationCycle.Mirror (1 : ℚ) 1).GetAnimPosAbsolute (2 * (1 / 2))) :=
  ⟨rfl, getAnimPosAbsolute_mirror_formula _ _ rfl⟩

end TextureAnimation

/-! ## Texture animation: frame queries and relative position -/

section TextureQueries

variable {K : Type} [LinearOrderedField K]

open STextureAnimation

/-- Claim C12: `IsAnimating()` is true exactly when `m_frameCount > 1` (so, when the frame
count is within its limits `1..256`, it is false exactly when the frame count is 1), and
`HasAbsoluteFrameRate()` is true exactly when `m_frameRate > 0`. -/
theorem isAnimating_hasAbsoluteFrameRate_iff (self : STextureAnimation K) :
    (self.IsAnimating = true ↔ self.m_frameCount > 1) ∧
      (1 ≤ self.m_frameCount ∧ self.m_frameCount ≤ 256 →
        (self.IsAnimating = false ↔ self.m_frameCount = 1)) ∧
      (self.HasAbsoluteFrameRate = true ↔ self.m_frameRate > 0) := by
  refine ⟨by simp [IsAnimating], ?_, by simp [HasAbsoluteFrameRate]⟩
  rintro ⟨h1, -⟩
  simp only [IsAnimating, decide_eq_false_iff_not]
  omega

/-- Evaluation at a single-frame animation: the frame count is within its limits and the
animation is not animating. -/
theorem isAnimating_hasAbsoluteFrameRate_iff_witness :
    (1 ≤ (mkAnim EAnimationCycle.Once (1 : ℚ) 1).m_frameCount ∧
        (mkAnim EAnimationCycle.Once (1 : ℚ) 1).m_frameCount ≤ 256) ∧
      ((mkAnim EAnimationCycle.Once (1 : ℚ) 1).IsAnimating = false ↔
        (mkAnim EAnimationCycle.Once (1 : ℚ) 1).m_frameCount = 1) :=
  ⟨by decide, (isAnimating_hasAbsoluteFrameRate_iff _).2.1 (by decide)⟩

end TextureQueries

section TextureRelative

variable {K : Type} [LinearOrderedField K] [FloorRing K]

open STextureAnimation

end TextureRelative

/-! ## Update stages: `EUpdateList` -/

section UpdateStages

open EUpdateList

/-- Claim C11, as stated, fails: `EUL_Count` is not 14, and the number of stages declared
before it is not 14. -/
theorem eul_count_ne_fourteen :
    EUL_Count.toNat ≠ 14 ∧ stages.length ≠ 14 := by
  decide

/-- Claim C11, amended: the update-stage enumeration is a fixed closed set of exactly 15
stages: `EUpdateList` has 15 members before `EUL_Count` (the fifteenth is
`EUL_UpdateGPU`, of value 14), so `EUL_Count = 15` and a component holds exactly 15
per-stage update lists. -/
theorem eul_count_eq_fifteen :
    EUL_Count.toNat = 15 ∧ stages.length = 15 ∧ EUL_Count ∉ stages ∧
      (∀ e : EUpdateList, e ∈ stages ↔ e ≠ EUL_Count) ∧
      EUL_UpdateGPU.toNat = 14 ∧
      Fintype.card (Fin EUL_Count.toNat) = 15 := by
  refine ⟨by decide, by decide, by decide, ?_, by decide, by decide⟩
  intro e
  cases e <;> decide

end UpdateStages

/-! ## Visibility parameters: order, restriction and neutral element -/

section VisibilityOrder

variable {K : Type} [LinearOrderedField K]

open SVisibilityParams

/-- Combining any sequence of further operands into a receiver whose indoor axis is
narrowed leaves that axis as it is. -/
theorem foldl_combine_indoor (bs : List (SVisibilityParams K)) (a : SVisibilityParams K)
    (h : a.m_indoorVisibility ≠ EIndoorVisibility.Both) :
    (bs.foldl Combine a).m_indoorVisibility = a.m_indoorVisibility := by
  induction bs generalizing a with
  | nil => rfl
  | cons b bs ih =>
    have hb : (a.Combine b).m_indoorVisibility = a.m_indoorVisibility := by
      simp [Combine, h]
    rw [List.foldl_cons, ih (a.Combine b) (by rw [hb]; exact h), hb]

/-- Combining any sequence of further operands into a receiver whose water axis is
narrowed leaves that axis as it is. -/
theorem foldl_combine_water (bs : List (SVisibilityParams K)) (a : SVisibilityParams K)
    (h : a.m_waterVisibility ≠ EWaterVisibility.Both) :
    (bs.foldl Combine a).m_waterVisibility = a.m_waterVisibility := by
  induction bs generalizing a with
  | nil => rfl
  | cons b bs ih =>
    have hb : (a.Combine b).m_waterVisibility = a.m_waterVisibility := by
      simp [Combine, h]
    rw [List.foldl_cons, ih (a.Combine b) (by rw [hb]; exact h), hb]

/-- Claim C14: if the receiver's indoor/outdoor axis is not `Both` before `a.Combine(b)`
then it is unchanged afterwards whatever `b` is, and it stays unchanged through any
sequence of later combines; if it is `Both` then it becomes `b`'s axis.  The same holds
for the water axis. -/
theorem combine_axis_sticky (a b : SVisibilityParams K) (bs : List (SVisibilityParams K)) :
    ((a.m_indoorVisibility ≠ EIndoorVisibility.Both →
          (a.Combine b).m_indoorVisibility = a.m_indoorVisibility ∧
            (bs.foldl Combine a).m_indoorVisibility = a.m_indoorVisibility) ∧
        (a.m_indoorVisibility = EIndoorVisibility.Both →
          (a.Combine b).m_indoorVisibility = b.m_indoorVisibility)) ∧
      ((a.m_waterVisibility ≠ EWaterVisibility.Both →
          (a.Combine b).m_waterVisibility = a.m_waterVisibility ∧
            (bs.foldl Combine a).m_waterVisibility = a.m_waterVisibility) ∧
        (a.m_waterVisibility = EWaterVisibility.Both →
          (a.Combine b).m_waterVisibility = b.m_waterVisibility)) := by
  refine ⟨⟨fun h => ⟨by simp [Combine, h], foldl_combine_indoor bs a h⟩,
      fun h => by simp [Combine, h]⟩,
    ⟨fun h => ⟨by simp [Combine, h], foldl_combine_water bs a h⟩,
      fun h => by simp [Combine, h]⟩⟩

/-- Evaluation at a receiver that is indoor-only with an open water axis, combined with
an operand that is outdoor-only and below-water-only. -/
theorem combine_axis_sticky_witness :
    (mkVis EIndoorVisibility.IndoorOnly EWaterVisibility.Both).m_indoorVisibility ≠
        EIndoorVisibility.Both ∧
      (mkVis EIndoorVisibility.IndoorOnly EWaterVisibility.Both).m_waterVisibility =
        EWaterVisibility.Both ∧
      ((mkVis EIndoorVisibility.IndoorOnly EWaterVisibility.Both).Combine
          (mkVis EIndoorVisibility.OutdoorOnly
            EWaterVisibility.BelowWaterOnly)).m_indoorVisibility =
        (mkVis EIndoorVisibility.IndoorOnly EWaterVisibility.Both).m_indoorVisibility ∧
      ((mkVis EIndoorVisibility.IndoorOnly EWaterVisibility.Both).Combine
          (mkVis EIndoorVisibility.OutdoorOnly
            EWaterVisibility.BelowWaterOnly)).m_waterVisibility =
        (mkVis EIndoorVisibility.OutdoorOnly
          EWaterVisibility.BelowWaterOnly).m_waterVisibility :=
  ⟨by decide, rfl,
    ((combine_axis_sticky (mkVis EIndoorVisibility.IndoorOnly EWaterVisibility.Both)
      (mkVis EIndoorVisibility.OutdoorOnly EWaterVisibility.BelowWaterOnly) []).1.1
        (by decide)).1,
    (combine_axis_sticky (mkVis EIndoorVisibility.IndoorOnly EWaterVisibility.Both)
      (mkVis EIndoorVisibility.OutdoorOnly EWaterVisibility.BelowWaterOnly) []).2.2 rfl⟩

/-- Claim C15: after `a.Combine(b)` the result's `m_maxScreenSize` and
`m_maxCameraDistance` are at most both operands' values, its `m_minCameraDistance` is at
least both operands' values, each is equal to one of the two operand values, and a
distance lies in the camera-distance range of the result exactly when it lies in the
range of each operand. -/
theorem combine_most_restrictive (a b : SVisibilityParams K) :
    ((a.Combine b).m_maxScreenSize ≤ a.m_maxScreenSize ∧
        (a.Combine b).m_maxScreenSize ≤ b.m_maxScreenSize ∧
        ((a.Combine b).m_maxScreenSize = a.m_maxScreenSize ∨
          (a.Combine b).m_maxScreenSize = b.m_maxScreenSize)) ∧
      ((a.Combine b).m_maxCameraDistance ≤ a.m_maxCameraDistance ∧
        (a.Combine b).m_maxCameraDistance ≤ b.m_maxCameraDistance ∧
        ((a.Combine b).m_maxCameraDistance = a.m_maxCameraDistance ∨
          (a.Combine b).m_maxCameraDistance = b.m_maxCameraDistance)) ∧
      (a.m_minCameraDistance ≤ (a.Combine b).m_minCameraDistance ∧
        b.m_minCameraDistance ≤ (a.Combine b).m_minCameraDistance ∧
        ((a.Combine b).m_minCameraDistance = a.m_minCameraDistance ∨
          (a.Combine b).m_minCameraDistance = b.m_minCameraDistance)) ∧
      (∀ d : K,
        ((a.Combine b).m_minCameraDistance ≤ d ∧
            ((d : K) : WithTop K) ≤ (a.Combine b).m_maxCameraDistance) ↔
          ((a.m_minCameraDistance ≤ d ∧ ((d : K) : WithTop K) ≤ a.m_maxCameraDistance) ∧
            (b.m_minCameraDistance ≤ d ∧ ((d : K) : WithTop K) ≤ b.m_maxCameraDistance))) := by
  refine ⟨⟨min_le_left _ _, min_le_right _ _, min_choice _ _⟩,
    ⟨min_le_left _ _, min_le_right _ _, min_choice _ _⟩,
    ⟨le_max_left _ _, le_max_right _ _, max_choice _ _⟩, ?_⟩
  intro d
  simp only [Combine, max_le_iff, le_min_iff]
  tauto

/-- Claim C18: with an indoor-only `a` and an outdoor-only `b`, `a.Combine(b)` is
indoor-only and `b.Combine(a)` is outdoor-only, so `Combine` is not commutative on the enum
axes: two conflicting sides resolve to the receiver's side, and folding `a`, `b` into an
open receiver gives a different axis than folding `b`, `a`. -/
theorem combine_axis_not_comm (a b d : SVisibilityParams K)
    (ha : a.m_indoorVisibility = EIndoorVisibility.IndoorOnly)
    (hb : b.m_indoorVisibility = EIndoorVisibility.OutdoorOnly)
    (hd : d.m_indoorVisibility = EIndoorVisibility.Both) :
    (a.Combine b).m_indoorVisibility = EIndoorVisibility.IndoorOnly ∧
      (b.Combine a).m_indoorVisibility = EIndoorVisibility.OutdoorOnly ∧
      (a.Combine b).m_indoorVisibility ≠ (b.Combine a).m_indoorVisibility ∧
      a.Combine b ≠ b.Combine a ∧
      ([a, b].foldl Combine d).m_indoorVisibility = EIndoorVisibility.IndoorOnly ∧
      ([b, a].foldl Combine d).m_indoorVisibility = EIndoorVisibility.OutdoorOnly := by
  have h1 : (a.Combine b).m_indoorVisibility = EIndoorVisibility.IndoorOnly := by
    simp [Combine, ha]
  have h2 : (b.Combine a).m_indoorVisibility = EIndoorVisibility.OutdoorOnly := by
    simp [Combine, hb]
  refine ⟨h1, h2, by rw [h1, h2]; decide, ?_, by simp [Combine, ha, hd],
    by simp [Combine, hb, hd]⟩
  intro h
  have h3 := congrArg SVisibilityParams.m_indoorVisibility h
  rw [h1, h2] at h3
  exact absurd h3 (by decide)

/-- Evaluation at an indoor-only and an outdoor-only record: such a pair exists and the
two orders of combination differ. -/
theorem combine_axis_not_comm_witness :
    (mkVis EIndoorVisibility.IndoorOnly EWaterVisibility.Both).m_indoorVisibility =
        EIndoorVisibility.IndoorOnly ∧
      (mkVis EIndoorVisibility.OutdoorOnly EWaterVisibility.Both).m_indoorVisibility =
        EIndoorVisibility.OutdoorOnly ∧
      (mkVis EIndoorVisibility.Both EWaterVisibility.Both).m_indoorVisibility =
        EIndoorVisibility.Both ∧
      ((mkVis EIndoorVisibility.IndoorOnly EWaterVisibility.Both).Combine
          (mkVis EIndoorVisibility.OutdoorOnly EWaterVisibility.Both)).m_indoorVisibility ≠
        ((mkVis EIndoorVisibility.OutdoorOnly EWaterVisibility.Both).Combine
          (mkVis EIndoorVisibility.IndoorOnly EWaterVisibility.Both)).m_indoorVisibility :=
  ⟨rfl, rfl, rfl,
    (combine_axis_not_comm (mkVis EIndoorVisibility.IndoorOnly EWaterVisibility.Both)
      (mkVis EIndoorVisibility.OutdoorOnly EWaterVisibility.Both)
      (mkVis EIndoorVisibility.Both EWaterVisibility.Both) rfl rfl rfl).2.2.1⟩

/-- Claim C19: for every receiver `a` with `m_minCameraDistance ≥ 0`, combining with `n`
where `n.m_viewDistanceMultiple = 1`, `n.m_minCameraDistance = 0`,
`n.m_maxCameraDistance = +infinity`, `n.m_maxScreenSize = +infinity` and both enum axes
are `Both` leaves all six fields of `a` unchanged. -/
theorem combine_neutral (a n : SVisibilityParams K) (ha : 0 ≤ a.m_minCameraDistance)
    (h1 : n.m_viewDistanceMultiple = 1) (h2 : n.m_minCameraDistance = 0)
    (h3 : n.m_maxCameraDistance = ⊤) (h4 : n.m_maxScreenSize = ⊤)
    (h5 : n.m_indoorVisibility = EIndoorVisibility.Both)
    (h6 : n.m_waterVisibility = EWaterVisibility.Both) :
    a.Combine n = a := by
  cases a with
  | mk v mn mx ms i w =>
    simp only at ha
    simp only [Combine, h1, h2, h3, h4, h5, h6, mul_one, min_top_right, max_eq_left ha,
      SVisibilityParams.mk.injEq, true_and]
    constructor
    · by_cases h : i = EIndoorVisibility.Both <;> simp [h]
    · by_cases h : w = EWaterVisibility.Both <;> simp [h]

/-- Evaluation with the receiver of view distance multiple 2 and the neutral record. -/
theorem combine_neutral_witness :
    0 ≤ visDouble.m_minCameraDistance ∧
      (mkVis EIndoorVisibility.Both EWaterVisibility.Both).m_viewDistanceMultiple = 1 ∧
      (mkVis EIndoorVisibility.Both EWaterVisibility.Both).m_minCameraDistance = 0 ∧
      (mkVis EIndoorVisibility.Both EWaterVisibility.Both).m_maxCameraDistance = ⊤ ∧
      (mkVis EIndoorVisibility.Both EWaterVisibility.Both).m_maxScreenSize = ⊤ ∧
      (mkVis EIndoorVisibility.Both EWaterVisibility.Both).m_indoorVisibility =
        EIndoorVisibility.Both ∧
      (mkVis EIndoorVisibility.Both EWaterVisibility.Both).m_waterVisibility =
        EWaterVisibility.Both ∧
      visDouble.Combine (mkVis EIndoorVisibility.Both EWaterVisibility.Both) = visDouble :=
  ⟨by simp [visDouble], rfl, rfl, rfl, rfl, rfl, rfl,
    combine_neutral visDouble (mkVis EIndoorVisibility.Both EWaterVisibility.Both)
      (by simp [visDouble]) rfl rfl rfl rfl rfl rfl⟩

/-- Claim C20: `Combine` is associative on the whole record: `(a.Combine(b)).Combine(c)`
and `a.Combine(b.Combine(c))` agree on all six fields. -/
theorem combine_assoc (a b c : SVisibilityParams K) :
    (a.Combine b).Combine c = a.Combine (b.Combine c) := by
  simp only [Combine, mul_assoc, min_assoc, max_assoc, SVisibilityParams.mk.injEq, true_and]
  constructor
  · by_cases h : a.m_indoorVisibility = EIndoorVisibility.Both <;> simp [h]
  · by_cases h : a.m_waterVisibility = EWaterVisibility.Both <;> simp [h]

end VisibilityOrder

/-! ## Particle component: instance data and GPU features -/

section Component

variable {K : Type}

open CParticleComponent

/-- Claim C17: `AddGPUFeature(g)` with a non-null `g` yields the previous GPU feature list
followed by `g` (length grows by one, existing entries and their order unchanged) and
modifies no other field of the component; `AddGPUFeature(null)` leaves the component
unchanged. -/
theorem addGPUFeature_append (self : CParticleComponent K) (g : Ptr) (hg : g ≠ 0) :
    self.AddGPUFeature g = { self with m_gpuFeatures := self.m_gpuFeatures ++ [g] } ∧
      (self.AddGPUFeature g).GetGpuFeatures = self.GetGpuFeatures ++ [g] ∧
      (self.AddGPUFeature g).GetGpuFeatures.length = self.GetGpuFeatures.length + 1 ∧
      (∀ i : Nat, i < self.GetGpuFeatures.length →
        (self.AddGPUFeature g).GetGpuFeatures[i]? = self.GetGpuFeatures[i]?) ∧
      self.AddGPUFeature 0 = self := by
  have h : self.AddGPUFeature g = { self with m_gpuFeatures := self.m_gpuFeatures ++ [g] } := by
    simp [AddGPUFeature, hg]
  refine ⟨h, by rw [h]; rfl, by rw [h]; simp [GetGpuFeatures], ?_, by simp [AddGPUFeature]⟩
  intro i hi
  rw [h]
  simp only [GetGpuFeatures] at hi ⊢
  rw [List.getElem?_append_left hi]

/-- Evaluation at a component holding the GPU feature at address 3, adding the one at
address 7. -/
theorem addGPUFeature_append_witness :
    (7 : Ptr) ≠ 0 ∧ ((mkComponent [3]).AddGPUFeature 7).GetGpuFeatures = [3, 7] ∧
      ((mkComponent [3]).AddGPUFeature 0).GetGpuFeatures = [3] :=
  ⟨by decide, (addGPUFeature_append (mkComponent [3]) 7 (by decide)).2.1,
    congrArg CParticleComponent.GetGpuFeatures
      (addGPUFeature_append (mkComponent [3]) 7 (by decide)).2.2.2.2⟩

end Component

end pfx2
